import Mathlib

/-!
Shallow embedding of the ds.js example scripts:
  - src/agents/model-architect/examples/models/image_classification/create_model.py
  - src/agents/model-architect/examples/create-model.py
  - src/scripts/create_onnx_model.py
  - src/examples/MIPROv2/create-model.py
  - src/examples/MIPROv2/train-model.py
Each script is modelled as a function from an ambient entropy stream (the
unseeded process RNG feeding torch.randn and layer initialisation) to either a
Python-level error or a run result: the list of files written (path, open
mode, structured content) plus a trace of the top-level steps of the script.
Serialized artifacts are represented structurally: a serializer is modelled by
a free constructor applied to everything that determines its output bytes.
-/

/-- Python-level exceptions that the scripts can raise.  Only the kinds the
scripts can actually hit are represented. -/
inductive PyErr
  | nameError (name : String)
  | typeError (name : String)
  deriving DecidableEq, Repr

/-- Open modes used by the scripts (json.dump target uses mode w, the binary
model writes use wb; no script opens a file in append mode). -/
inductive FileMode
  | write
  | writeBinary
  | append
  deriving DecidableEq, Repr

/-- Declared on-disk formats of the artifacts. -/
inductive FileFormat
  | onnx
  | jsonFmt
  | plainTextFmt
  deriving DecidableEq, Repr

/-- A JSON value, for the metadata sidecar literal. -/
inductive J
  | str (s : String)
  | num (q : ℚ)
  | obj (kvs : List (String × J))

/-- Top-level keys of a JSON object (empty for non-objects). -/
def J.topKeys : J → List String
  | .obj kvs => kvs.map (fun kv => kv.1)
  | _ => []

/-- An atomic JSON value: a string or a number, not a nested object. -/
def J.isAtomic : J → Bool
  | .str _ => true
  | .num _ => true
  | .obj _ => false

/-- A flat key-value JSON document: an object all of whose values are atomic. -/
def J.isFlat : J → Bool
  | .obj kvs => kvs.all (fun kv => kv.2.isAtomic)
  | _ => false

/-- The parameters a script passes to its graph-export routine: input and
output port names and the dynamic-axis naming hints (axis index, axis name)
per port. -/
structure ExportCall where
  inputNames : List String
  outputNames : List String
  dynAxes : List (String × List (Nat × String))
  deriving DecidableEq, Repr

/-- One top-level step of a script, in source order. -/
inductive Step
  | define
  | forwardPass
  | trainLoop
  | fitCall
  | exportStep (c : ExportCall)
  | dumpJson
  | dumpText
  deriving DecidableEq, Repr

/-- Whether a step executes the model/graph on data before export (an explicit
forward pass, an explicit training loop, or a library fit call). -/
def Step.isExec : Step → Bool
  | .forwardPass => true
  | .trainLoop => true
  | .fitCall => true
  | _ => false

/-- Torch layers instantiated by the scripts, with the hyperparameters that
determine their parameter tensors. -/
inductive TorchLayer
  | conv2d (inC outC kh kw : Nat)
  | reluLayer
  | maxPool2d (kh kw : Nat)
  | flattenLayer
  | linear (inF outF : Nat)
  | lstm (inputSize hiddenSize numLayers : Nat)
  deriving DecidableEq, Repr

/-- Number of scalar parameters a torch layer allocates (weights plus biases;
for LSTM: weight_ih, weight_hh, bias_ih, bias_hh per layer, later layers take
hiddenSize-sized input). -/
def TorchLayer.paramCount : TorchLayer → Nat
  | .conv2d i o kh kw => o * i * kh * kw + o
  | .linear i o => o * i + o
  | .lstm i h l => (4 * h * i + 4 * h * h + 8 * h) + (l - 1) * (4 * h * h + 4 * h * h + 8 * h)
  | _ => 0

/-- Total parameter count of a torch architecture (a list of layers). -/
def torchParamCount (layers : List TorchLayer) : Nat :=
  (layers.map TorchLayer.paramCount).sum

/-- Draw n scalars from the ambient entropy stream, in order: models
torch.randn-based parameter initialisation from the unseeded process RNG. -/
def drawWeights (e : ℕ → ℚ) : Nat → List ℚ
  | 0 => []
  | n + 1 => e 0 :: drawWeights (fun i => e (i + 1)) n

/-- Structured content of a written file.  Each serializer is modelled by a
free constructor applied to everything that determines its byte output:
torchExport captures the architecture and the serialized initial weights,
torchTrained additionally captures the training data and epoch count that the
training loop folds into the weights, sklOnnx captures the training corpus and
the feature count that determine the (deterministic lbfgs) classifier. -/
inductive Content
  | onnxGraphFile (nodeCount : Nat) (graphName : String)
  | torchExport (archName : String) (weights : List ℚ)
  | torchTrained (archName : String) (initWeights : List ℚ)
      (trainData : List (String × String)) (epochs : Nat)
  | sklOnnx (corpus : List String) (labels : List Int) (nFeatures : Nat)
  | jsonFile (j : J)
  | textFile (s : String)

/-- Structural size of a content value: positive iff the artifact is
non-empty. -/
def Content.size : Content → Nat
  | .onnxGraphFile n _ => n
  | .torchExport _ w => w.length
  | .torchTrained _ w _ _ => w.length
  | .sklOnnx _ _ n => n
  | .jsonFile j => j.topKeys.length
  | .textFile s => s.length

/-- The on-disk format a content value serializes to. -/
def Content.format : Content → FileFormat
  | .onnxGraphFile _ _ => .onnx
  | .torchExport _ _ => .onnx
  | .torchTrained _ _ _ _ => .onnx
  | .sklOnnx _ _ _ => .onnx
  | .jsonFile _ => .jsonFmt
  | .textFile _ => .plainTextFmt

/-- One file write performed by a script. -/
structure FileWrite where
  path : String
  mode : FileMode
  content : Content

/-- Result of a completed script run: the files written and the trace of
top-level steps. -/
structure RunResult where
  writes : List FileWrite
  trace : List Step

/-- The five scripts of the repository. -/
inductive Script
  | imageClassification
  | textModelHelper
  | tabularClassifier
  | miproCreate
  | miproTrain
  deriving DecidableEq, Repr

/-! ## Image-classification script
src/agents/model-architect/examples/models/image_classification/create_model.py -/

/-- A layer-constructor argument as written in the source: either an integer
literal or a bare Python identifier, to be resolved in the module scope. -/
inductive PyArg
  | lit (n : Nat)
  | ident (s : String)
  deriving DecidableEq, Repr

/-- Names bound at module scope in create_model.py when Model() is evaluated:
the two imported modules and the class itself.  No assignment to the
identifier undefined appears anywhere in the file. -/
def imageModuleNames : List String := ["torch", "nn", "Model"]

/-- Resolve a constructor argument the way CPython does: a literal evaluates
to itself; an identifier is looked up in the enclosing scopes and raises
NameError when absent (the three bound names are module/class objects, not
integers, so using one as a layer size would raise TypeError; no layer
argument in the source does). -/
def evalPyArg : PyArg → Except PyErr Nat
  | .lit n => .ok n
  | .ident s =>
    if s ∈ imageModuleNames then .error (.typeError s) else .error (.nameError s)

/-- A layer specification as written in Model.__init__, with its argument
expressions unevaluated. -/
inductive LayerSpec
  | conv2d (inC outC : PyArg) (kh kw : Nat)
  | reluSpec
  | maxPool2d (kh kw : Nat)
  | flattenSpec
  | linear (inF outF : PyArg)
  deriving DecidableEq, Repr

/-- The eleven entries of the nn.ModuleList literal in Model.__init__, in
source order (lines 8-38); the second Conv2d passes in_channels=undefined and
the first Linear passes in_features=undefined. -/
def imageLayerSpecs : List LayerSpec :=
  [ .conv2d (.lit 3) (.lit 32) 3 3,
    .reluSpec,
    .maxPool2d 2 2,
    .conv2d (.ident ("undefined")) (.lit 64) 3 3,
    .reluSpec,
    .maxPool2d 2 2,
    .flattenSpec,
    .linear (.ident ("undefined")) (.lit 128),
    .reluSpec,
    .linear (.lit 128) (.lit 2),
    .reluSpec ]

/-- Evaluate one layer specification to a torch layer, propagating the first
argument-evaluation error (CPython evaluates constructor arguments
left-to-right). -/
def buildLayer : LayerSpec → Except PyErr TorchLayer
  | .conv2d i o kh kw => do
    let iv ← evalPyArg i
    let ov ← evalPyArg o
    pure (.conv2d iv ov kh kw)
  | .reluSpec => pure .reluLayer
  | .maxPool2d kh kw => pure (.maxPool2d kh kw)
  | .flattenSpec => pure .flattenLayer
  | .linear i o => do
    let iv ← evalPyArg i
    let ov ← evalPyArg o
    pure (.linear iv ov)

/-- Evaluate the whole ModuleList literal in order, stopping at the first
error, as Model() does. -/
def buildImageModel : Except PyErr (List TorchLayer) :=
  imageLayerSpecs.mapM buildLayer

/-- The metadata document literal dumped at line 68 of the script, transcribed
key for key; every value is a hand-written constant. -/
def imageMetadata : J :=
  .obj
    [ ("task", .str ("image_classification")),
      ("framework", .str ("pytorch")),
      ("quantization", .obj
        [ ("precision", .str ("fp16")),
          ("calibrationDataset", .str ("validation")) ]),
      ("metrics", .obj
        [ ("parameterCount", .num 93826),
          ("layerCount", .num 11),
          ("computationalComplexity", .str ("O(n^2)")),
          ("inferenceTime", .num 25),
          ("estimatedMemoryUsage", .num 400),
          ("estimatedGpuUtilization", .num (7 / 10)),
          ("accuracy", .num (92 / 100)),
          ("latency", .num 25),
          ("throughput", .num 120),
          ("powerConsumption", .num 70) ]) ]

/-- Export parameters of the torch.onnx.export call at lines 52-63. -/
def imageExportCall : ExportCall :=
  { inputNames := ["input"],
    outputNames := ["output"],
    dynAxes := [("input", [(0, "batch_size")]), ("output", [(0, "batch_size")])] }

/-- Run the image-classification script: construct Model() (which evaluates
the ModuleList literal), draw the parameter initialisation and the dummy
input from the entropy stream, export to model.onnx, dump metadata.json.
The construction step raises before any file is written. -/
def runImageScript (e : ℕ → ℚ) : Except PyErr RunResult := do
  let arch ← buildImageModel
  let w := drawWeights e (torchParamCount arch)
  pure
    { writes :=
        [ { path := "model.onnx", mode := .writeBinary,
            content := .torchExport ("Model") w },
          { path := "metadata.json", mode := .write,
            content := .jsonFile imageMetadata } ],
      trace := [.define, .exportStep imageExportCall, .dumpJson] }

/-! ## Text-generation helper script
src/agents/model-architect/examples/create-model.py builds an ONNX graph by
hand with onnx.helper and saves it; it never executes the graph. -/

/-- Element types of ONNX tensors used here. -/
inductive ElemType
  | stringElem
  | floatElem
  deriving DecidableEq, Repr

/-- A named graph port with element type and (optionally dynamic) shape, as
produced by helper.make_tensor_value_info. -/
structure TensorValueInfo where
  name : String
  elemType : ElemType
  shape : List (Option Nat)
  deriving DecidableEq, Repr

/-- An ONNX graph node, as produced by helper.make_node (the axis attribute is
the only attribute the script sets). -/
structure OnnxNode where
  opType : String
  inputs : List String
  outputs : List String
  axis : Int
  deriving DecidableEq, Repr

/-- An ONNX graph, as produced by helper.make_graph. -/
structure OnnxGraph where
  nodes : List OnnxNode
  name : String
  inputs : List TensorValueInfo
  outputs : List TensorValueInfo
  deriving DecidableEq, Repr

/-- The graph built by create_text_model (lines 6-28): one string input of
shape [1], one string output of shape [1], and a single Concat node over the
sole input along axis 0. -/
def textGenerationGraph : OnnxGraph :=
  { nodes := [{ opType := "Concat", inputs := ["input"], outputs := ["output"], axis := 0 }],
    name := "text-generation",
    inputs := [{ name := "input", elemType := .stringElem, shape := [some 1] }],
    outputs := [{ name := "output", elemType := .stringElem, shape := [some 1] }] }

/-- A one-dimensional string tensor. -/
abbrev StrTensor := List String

/-- Execute one node on the value environment, per ONNX operator semantics:
Concat along axis 0 of one-dimensional tensors concatenates them in input
order (Concat is the only operator the graphs of this repository contain, so it is
the only one the evaluator interprets; anything else fails). -/
def runOnnxNode (env : List (String × StrTensor)) (n : OnnxNode) :
    Option (List (String × StrTensor)) :=
  if n.opType = "Concat" ∧ n.axis = 0 then
    match n.inputs.mapM (fun i => env.lookup i), n.outputs with
    | some vals, [out] => some ((out, vals.flatten) :: env)
    | _, _ => none
  else none

/-- Evaluate a graph on a list of input tensors (one per declared input, in
order): bind the inputs, run the nodes in order, read off the declared
outputs. -/
def evalOnnxGraph (g : OnnxGraph) (inputVals : List StrTensor) :
    Option (List StrTensor) :=
  if inputVals.length = g.inputs.length then do
    let env0 := (g.inputs.map TensorValueInfo.name).zip inputVals
    let env ← g.nodes.foldlM runOnnxNode env0
    g.outputs.mapM (fun o => env.lookup o.name)
  else none

/-- Export parameters of the save in create_text_model: the ports of the graph itself
names, no dynamic-axis hints (onnx.save passes no example input and no axis
names). -/
def textModelExportCall : ExportCall :=
  { inputNames := (textGenerationGraph.inputs.map TensorValueInfo.name),
    outputNames := (textGenerationGraph.outputs.map TensorValueInfo.name),
    dynAxes := [] }

/-- Run the helper script: build the graph, save it to
models/text-generation.onnx.  No forward pass, no training, no entropy use. -/
def runTextModelScript (_e : ℕ → ℚ) : Except PyErr RunResult :=
  .ok
    { writes :=
        [ { path := "models/text-generation.onnx", mode := .writeBinary,
            content := .onnxGraphFile textGenerationGraph.nodes.length
              textGenerationGraph.name } ],
      trace := [.define, .exportStep textModelExportCall] }

/-! ## Tabular classifier script
src/scripts/create_onnx_model.py fits a CountVectorizer + LogisticRegression
pipeline on a six-row literal dataset and converts only the classifier step
to ONNX. -/

/-- The six training texts (lines 9-16). -/
def sklTexts : List String :=
  ["This is great", "I love it", "Amazing product", "This is terrible",
   "I hate it", "Poor quality"]

/-- The six labels, 1 for positive and 0 for negative (line 17). -/
def sklLabels : List Int := [1, 1, 1, 0, 0, 0]

/-- A word character for the default CountVectorizer token pattern
(regex word character: alphanumeric or underscore). -/
def isWordChar (c : Char) : Bool := c.isAlphanum || c == '_'

/-- Split a character list into maximal runs of word characters, accumulating
the current run in reverse. -/
def wordRuns : List Char → List Char → List (List Char)
  | [], acc => if acc.isEmpty then [] else [acc.reverse]
  | c :: cs, acc =>
    if isWordChar c then wordRuns cs (c :: acc)
    else if acc.isEmpty then wordRuns cs [] else acc.reverse :: wordRuns cs []

/-- Modelled from the documented scikit-learn CountVectorizer defaults: the
analyzer lowercases the document and extracts tokens matching the default
token pattern (runs of word characters of length at least two). -/
def cvTokenize (s : String) : List String :=
  ((wordRuns (s.toList.map Char.toLower) []).filter (fun t => 2 ≤ t.length)).map
    (fun t => String.mk t)

/-- Lexicographic order on character lists, by code point. -/
def strLeAux : List Char → List Char → Bool
  | [], _ => true
  | _ :: _, [] => false
  | a :: as, b :: bs =>
    if a.toNat < b.toNat then true
    else if a.toNat = b.toNat then strLeAux as bs
    else false

/-- Lexicographic order on strings, by code point. -/
def strLe (a b : String) : Bool := strLeAux a.toList b.toList

/-- Insert an element into a list sorted by the given comparison. -/
def insertBy (le : α → α → Bool) (x : α) : List α → List α
  | [] => [x]
  | y :: ys => if le x y then x :: y :: ys else y :: insertBy le x ys

/-- Insertion sort by the given comparison. -/
def sortBy (le : α → α → Bool) (xs : List α) : List α :=
  xs.foldr (insertBy le) []

/-- Sort a list of strings alphabetically. -/
def sortStrings (xs : List String) : List String :=
  sortBy strLe xs

/-- Number of documents of the corpus containing a given term, used to rank
terms when max_features caps the vocabulary. -/
def termDocFreq (docs : List String) (t : String) : Nat :=
  (docs.filter (fun d => t ∈ cvTokenize d)).length

/-- Modelled from the documented scikit-learn CountVectorizer behaviour: the
fitted vocabulary is the alphabetically sorted set of distinct tokens of the
corpus; when max_features is set and the set is larger, only the max_features
most frequent terms are kept (frequency descending, ties alphabetical). -/
def cvFitVocabulary (maxFeatures : Nat) (docs : List String) : List String :=
  let vocab := sortStrings (docs.flatMap cvTokenize).dedup
  if vocab.length ≤ maxFeatures then vocab
  else
    sortStrings
      (((sortBy (fun a b => b.1 < a.1 || (a.1 == b.1 && strLe a.2 b.2))
          (vocab.map (fun t => (termDocFreq docs t, t)))).take maxFeatures).map
        (fun p => p.2))

/-- The vocabulary fitted on the six texts with max_features=100 (line 21). -/
def sklVocabulary : List String := cvFitVocabulary 100 sklTexts

/-- n_features of the script (line 30): the length of
get_feature_names_out(), i.e. of the fitted vocabulary. -/
def sklNFeatures : Nat := sklVocabulary.length

/-- The steps of the sklearn Pipeline (lines 20-23). -/
inductive SklStep
  | vectorizer (maxFeatures : Nat)
  | logisticRegression
  deriving DecidableEq, Repr

/-- Named steps of the pipeline, in order. -/
def sklPipelineSteps : List (String × SklStep) :=
  [("vectorizer", .vectorizer 100), ("classifier", .logisticRegression)]

/-- named_steps lookup on the pipeline. -/
def sklNamedStep (name : String) : Option SklStep :=
  sklPipelineSteps.lookup name

/-- The object the script passes to skl2onnx.convert_sklearn (line 35):
pipeline.named_steps of the classifier key, i.e. the LogisticRegression step
alone, not the pipeline. -/
def sklConvertTarget : Option SklStep := sklNamedStep ("classifier")

/-- The initial_types argument of the conversion (line 33): one float tensor
named float_input of shape [None, n_features]. -/
def sklInitialType : List (String × ElemType × List (Option Nat)) :=
  [("float_input", .floatElem, [none, some sklNFeatures])]

/-- Export parameters of the convert_sklearn call: the declared input port,
no output names given, no dynamic-axis naming hints (the batch dimension is
dynamic but unnamed). -/
def sklExportCall : ExportCall :=
  { inputNames := sklInitialType.map (fun p => p.1),
    outputNames := [],
    dynAxes := [] }

/-- Run the tabular script: build the pipeline, fit it on the literal data,
convert the classifier step, write the model bytes (mode wb) and the
newline-joined feature names (mode w).  lbfgs on a fixed corpus is
deterministic, so the serialized classifier is a function of the corpus,
labels and feature count only; no entropy is consumed. -/
def runTabularScript (_e : ℕ → ℚ) : Except PyErr RunResult :=
  .ok
    { writes :=
        [ { path := "models/text-classifier.onnx", mode := .writeBinary,
            content := .sklOnnx sklTexts sklLabels sklNFeatures },
          { path := "models/feature_names.txt", mode := .write,
            content := .textFile (String.intercalate "\n" sklVocabulary) } ],
      trace := [.define, .fitCall, .exportStep sklExportCall, .dumpText] }

/-! ## MIPROv2 scripts
src/examples/MIPROv2/create-model.py exports an untrained SimpleTextGenerator;
src/examples/MIPROv2/train-model.py trains an MIPROv2Model on a three-pair
literal dataset and exports it. -/

/-- SimpleTextGenerator (create-model.py lines 5-14): LSTM(256, 512, one
layer, batch_first) followed by Linear(512, 256). -/
def simpleTextGeneratorArch : List TorchLayer :=
  [.lstm 256 512 1, .linear 512 256]

/-- MIPROv2Model (train-model.py lines 31-42): LSTM(1, 256, two layers,
batch_first) followed by Linear(256, 1). -/
def miprov2Arch : List TorchLayer :=
  [.lstm 1 256 2, .linear 256 1]

/-- Export parameters of the export call in create-model.py (lines 28-34). -/
def miproCreateExportCall : ExportCall :=
  { inputNames := ["input"],
    outputNames := ["output"],
    dynAxes :=
      [("input", [(0, "batch_size"), (1, "sequence_length")]),
       ("output", [(0, "batch_size")])] }

/-- Export parameters of export_to_onnx in train-model.py (lines 78-84). -/
def miproTrainExportCall : ExportCall :=
  { inputNames := ["input"],
    outputNames := ["output"],
    dynAxes := [("input", [(0, "batch_size")]), ("output", [(0, "batch_size")])] }

/-- Run create-model.py: instantiate SimpleTextGenerator (drawing its
parameter initialisation from the process entropy), build a random dummy
input, and export the freshly initialised weights to
models/text-generation.onnx.  No forward pass or training occurs. -/
def runMiproCreateScript (e : ℕ → ℚ) : Except PyErr RunResult :=
  let w := drawWeights e (torchParamCount simpleTextGeneratorArch)
  .ok
    { writes :=
        [ { path := "models/text-generation.onnx", mode := .writeBinary,
            content := .torchExport ("SimpleTextGenerator") w } ],
      trace := [.define, .exportStep miproCreateExportCall] }

/-- The literal training data of train-model.py main (lines 89-94):
(text, context) pairs. -/
def miproTrainData : List (String × String) :=
  [("What is machine learning?", "AI and computer science"),
   ("How does LSTM work?", "Neural networks and deep learning"),
   ("Explain backpropagation", "Training neural networks")]

/-- TextDataset.__getitem__ (train-model.py lines 17-29): build the combined
context/text prompt, map its first max_length characters to ord(c)/255
scalars, pad with zeros to max_length, and return (tokens, target) with
target a copy of tokens.  Scalars are represented as rationals.  In Python an
out-of-range index raises IndexError; here list access defaults, and every
claim about this function carries in-range hypotheses. -/
def textDatasetGetItem (texts contexts : List String) (maxLength : Nat)
    (idx : Nat) : List ℚ × List ℚ :=
  let text := texts.getD idx ""
  let context := contexts.getD idx ""
  let combined := "Context: " ++ context ++ "\nInput: " ++ text
  let tokens := (combined.toList.take maxLength).map (fun c => (c.toNat : ℚ) / 255)
  let padded := tokens ++ List.replicate (maxLength - tokens.length) 0
  (padded, padded)

/-- Run train-model.py: build the dataset from the literal pairs, instantiate
MIPROv2Model (drawing its initialisation from the process entropy), run the
ten-epoch training loop, and export the trained weights — a function of the
initialisation, the training data and the epoch count — to
models/miprov2-model.onnx. -/
def runMiproTrainScript (e : ℕ → ℚ) : Except PyErr RunResult :=
  let init := drawWeights e (torchParamCount miprov2Arch)
  .ok
    { writes :=
        [ { path := "models/miprov2-model.onnx", mode := .writeBinary,
            content := .torchTrained ("MIPROv2Model") init miproTrainData 10 } ],
      trace := [.define, .trainLoop, .exportStep miproTrainExportCall] }

/-! ## Running a script -/

/-- Dispatch: run one of the five scripts with no arguments, under a given
ambient entropy stream. -/
def runScript : Script → (ℕ → ℚ) → Except PyErr RunResult
  | .imageClassification, e => runImageScript e
  | .textModelHelper, e => runTextModelScript e
  | .tabularClassifier, e => runTabularScript e
  | .miproCreate, e => runMiproCreateScript e
  | .miproTrain, e => runMiproTrainScript e

/-- The files a completed run wrote (none when the script raised). -/
def writesOf : Except PyErr RunResult → List FileWrite
  | .ok r => r.writes
  | .error _ => []

/-- The step trace of a completed run (empty when the script raised). -/
def traceOf : Except PyErr RunResult → List Step
  | .ok r => r.trace
  | .error _ => []

/-- The documented fixed relative output paths of each script. -/
def documentedPaths : Script → List String
  | .imageClassification => ["model.onnx", "metadata.json"]
  | .textModelHelper => ["models/text-generation.onnx"]
  | .tabularClassifier => ["models/text-classifier.onnx", "models/feature_names.txt"]
  | .miproCreate => ["models/text-generation.onnx"]
  | .miproTrain => ["models/miprov2-model.onnx"]

/-- Whether the first character list occurs at the start of the second. -/
def charsStartWith : List Char → List Char → Bool
  | [], _ => true
  | _ :: _, [] => false
  | a :: as, b :: bs => a == b && charsStartWith as bs

/-- Whether the string s ends with the string t. -/
def strEndsWith (s t : String) : Bool :=
  charsStartWith t.toList.reverse s.toList.reverse

/-- The declared format of an output path, by extension. -/
def declaredFormat (p : String) : FileFormat :=
  if strEndsWith p (".onnx") then .onnx
  else if strEndsWith p (".json") then .jsonFmt
  else .plainTextFmt

/-- A constant entropy stream, standing for one concrete state of the process
RNG. -/
def constEntropy (q : ℚ) : ℕ → ℚ := fun _ => q

/-- Whether a step is an explicit training loop. -/
def Step.isTrainLoopStep : Step → Bool
  | .trainLoop => true
  | _ => false

/-- Whether a step is an export call. -/
def Step.isExportStep : Step → Bool
  | .exportStep _ => true
  | _ => false

/-- The export calls occurring in a step trace, in order. -/
def exportCallsOf : List Step → List ExportCall
  | [] => []
  | .exportStep c :: rest => c :: exportCallsOf rest
  | _ :: rest => exportCallsOf rest

/-! ## Helper lemmas -/

/-- drawWeights draws exactly the requested number of scalars. -/
theorem drawWeights_length (e : ℕ → ℚ) (n : Nat) : (drawWeights e n).length = n := by
  induction n generalizing e with
  | zero => rfl
  | succ m ih => simp [drawWeights, ih]

/-- Two draws of a positive number of scalars agree only when the streams
agree at the first index. -/
theorem drawWeights_eq_head (e f : ℕ → ℚ) (n : Nat) (hn : 0 < n)
    (h : drawWeights e n = drawWeights f n) : e 0 = f 0 := by
  cases n with
  | zero => exact absurd hn (by decide)
  | succ m =>
    simp [drawWeights] at h
    exact h.1

/-- Two distinct entropy states give the MIPROv2 export script distinct
serialized artifacts: the exported graph embeds the freshly drawn random
weights. -/
theorem miproCreate_entropy_sensitive :
    runScript .miproCreate (constEntropy 0) ≠ runScript .miproCreate (constEntropy 1) := by
  intro h
  simp [runScript, runMiproCreateScript, RunResult.mk.injEq, FileWrite.mk.injEq,
    Content.torchExport.injEq, List.cons.injEq] at h
  have h0 : constEntropy (0 : ℚ) 0 = constEntropy (1 : ℚ) 0 :=
    drawWeights_eq_head _ _ _ (by decide) h
  simp [constEntropy] at h0

/-! ## Claims -/

/-- C1: running the image-classification script raises a NameError for the
identifier undefined while constructing the model (the Conv2d in_channels and
Linear in_features reference an undefined value); the error propagates
uncaught to the process boundary, the script does not run to completion, and
no file is written. -/
theorem imageScript_raises_nameError (e : ℕ → ℚ) :
    buildImageModel = .error (.nameError ("undefined")) ∧
    runScript .imageClassification e = .error (.nameError ("undefined")) ∧
    writesOf (runScript .imageClassification e) = [] := by
  exact ⟨rfl, rfl, rfl⟩

/-- C1 witness: the failure at one concrete entropy state. -/
theorem imageScript_raises_nameError_witness :
    buildImageModel = .error (.nameError ("undefined")) ∧
    runScript .imageClassification (constEntropy 0) = .error (.nameError ("undefined")) ∧
    writesOf (runScript .imageClassification (constEntropy 0)) = [] :=
  imageScript_raises_nameError (constEntropy 0)

/-- C8: the text-generation graph built by create_text_model is a single
Concat node whose only input is the sole graph input, so evaluating the graph
on any string tensor of shape [1] returns the input unchanged — no fixed
string is ever appended. -/
theorem textGenerationGraph_identity :
    textGenerationGraph.nodes =
      [{ opType := "Concat", inputs := ["input"], outputs := ["output"], axis := 0 }] ∧
    textGenerationGraph.inputs.map TensorValueInfo.name = ["input"] ∧
    ∀ t : StrTensor, t.length = 1 →
      evalOnnxGraph textGenerationGraph [t] = some [t] := by
  refine ⟨rfl, rfl, fun t _ => ?_⟩
  simp [evalOnnxGraph, textGenerationGraph, runOnnxNode, List.foldlM, List.lookup,
    List.mapM, List.mapM.loop]

/-- C8 witness: the identity behaviour on a concrete singleton string
tensor. -/
theorem textGenerationGraph_identity_witness :
    (["hello"] : StrTensor).length = 1 ∧
    evalOnnxGraph textGenerationGraph [["hello"]] = some [["hello"]] :=
  ⟨by decide, textGenerationGraph_identity.2.2 ["hello"] (by decide)⟩

/-- C9: the object converted by the tabular script is the LogisticRegression
step alone (looked up among the two named steps of the pipeline), not the
vectorizer or the pipeline; the declared input is a single float tensor of
shape [None, n_features]; the fitted vocabulary has 11 features, within the
max_features=100 cap; and the sole input is a float tensor, not a string
tensor, so the exported graph cannot accept raw text. -/
theorem tabular_onnx_classifier_only :
    sklPipelineSteps.map (fun p => p.1) = ["vectorizer", "classifier"] ∧
    sklConvertTarget = some SklStep.logisticRegression ∧
    sklInitialType = [("float_input", ElemType.floatElem, [none, some sklNFeatures])] ∧
    sklNFeatures = 11 ∧
    sklNFeatures ≤ 100 ∧
    sklInitialType.map (fun p => p.2.1) = [ElemType.floatElem] ∧
    ElemType.floatElem ≠ ElemType.stringElem := by
  refine ⟨rfl, rfl, rfl, by decide, by decide, rfl, by decide⟩

/-- C10: for every valid index, TextDataset.__getitem__ returns a pair of
tensors (tokens, target), each of length exactly max_length, with target
elementwise equal to tokens, and every entry either ord(c)/255 for a
character c of the combined context/text string truncated to max_length
characters, or 0 padding. -/
theorem textDataset_getItem_spec (texts contexts : List String)
    (maxLength idx : Nat) (h1 : idx < texts.length) (h2 : idx < contexts.length) :
    (textDatasetGetItem texts contexts maxLength idx).1.length = maxLength ∧
    (textDatasetGetItem texts contexts maxLength idx).2 =
      (textDatasetGetItem texts contexts maxLength idx).1 ∧
    ∀ q ∈ (textDatasetGetItem texts contexts maxLength idx).1,
      q = 0 ∨
      ∃ c ∈ ("Context: " ++ contexts.getD idx ("") ++ "\nInput: " ++
          texts.getD idx ("")).toList.take maxLength,
        q = (c.toNat : ℚ) / 255 := by
  refine ⟨?_, rfl, ?_⟩
  · simp only [textDatasetGetItem, List.length_append, List.length_map,
      List.length_take, List.length_replicate]
    omega
  · intro q hq
    simp only [textDatasetGetItem] at hq
    rcases List.mem_append.1 hq with h | h
    · rcases List.mem_map.1 h with ⟨c, hc, rfl⟩
      exact Or.inr ⟨c, hc, rfl⟩
    · exact Or.inl (List.eq_of_mem_replicate h)

/-- C10 witness: the dataset built by main in train-model.py, at index 0 with
the default max_length of 128. -/
theorem textDataset_getItem_spec_witness :
    0 < (miproTrainData.map Prod.fst).length ∧
    0 < (miproTrainData.map Prod.snd).length ∧
    ((textDatasetGetItem (miproTrainData.map Prod.fst)
        (miproTrainData.map Prod.snd) 128 0).1.length = 128 ∧
      (textDatasetGetItem (miproTrainData.map Prod.fst)
          (miproTrainData.map Prod.snd) 128 0).2 =
        (textDatasetGetItem (miproTrainData.map Prod.fst)
            (miproTrainData.map Prod.snd) 128 0).1 ∧
      ∀ q ∈ (textDatasetGetItem (miproTrainData.map Prod.fst)
          (miproTrainData.map Prod.snd) 128 0).1,
        q = 0 ∨
        ∃ c ∈ ("Context: " ++ (miproTrainData.map Prod.snd).getD 0 ("") ++
            "\nInput: " ++ (miproTrainData.map Prod.fst).getD 0 ("")).toList.take 128,
          q = (c.toNat : ℚ) / 255) :=
  ⟨by decide, by decide,
    textDataset_getItem_spec (miproTrainData.map Prod.fst)
      (miproTrainData.map Prod.snd) 128 0 (by decide) (by decide)⟩

/-- C3 counterexample: the image-classification script run never reaches its
export or metadata writes — it raises NameError and produces no file at
either of its two documented output paths. -/
theorem imageScript_produces_no_output_file :
    documentedPaths .imageClassification = ["model.onnx", "metadata.json"] ∧
    runScript .imageClassification (constEntropy 0) = .error (.nameError ("undefined")) ∧
    (writesOf (runScript .imageClassification (constEntropy 0))).map FileWrite.path = [] :=
  ⟨rfl, rfl, rfl⟩

/-- C3 amended: each of the four scripts other than the image-classification
one, run with no arguments, writes exactly its documented fixed relative
paths, each written file is non-empty and its content is an instance of the
format its extension declares; the image-classification script raises before
writing anything. -/
theorem scripts_write_documented_outputs :
    (∀ e : ℕ → ℚ,
      (writesOf (runScript .textModelHelper e)).map FileWrite.path =
        documentedPaths .textModelHelper ∧
      (writesOf (runScript .textModelHelper e)).map (fun w => w.content.format) =
        (documentedPaths .textModelHelper).map declaredFormat ∧
      (writesOf (runScript .textModelHelper e)).all
        (fun w => 0 < w.content.size) = true) ∧
    (∀ e : ℕ → ℚ,
      (writesOf (runScript .tabularClassifier e)).map FileWrite.path =
        documentedPaths .tabularClassifier ∧
      (writesOf (runScript .tabularClassifier e)).map (fun w => w.content.format) =
        (documentedPaths .tabularClassifier).map declaredFormat ∧
      (writesOf (runScript .tabularClassifier e)).all
        (fun w => 0 < w.content.size) = true) ∧
    (∀ e : ℕ → ℚ,
      (writesOf (runScript .miproCreate e)).map FileWrite.path =
        documentedPaths .miproCreate ∧
      (writesOf (runScript .miproCreate e)).map (fun w => w.content.format) =
        (documentedPaths .miproCreate).map declaredFormat ∧
      (writesOf (runScript .miproCreate e)).all
        (fun w => 0 < w.content.size) = true) ∧
    (∀ e : ℕ → ℚ,
      (writesOf (runScript .miproTrain e)).map FileWrite.path =
        documentedPaths .miproTrain ∧
      (writesOf (runScript .miproTrain e)).map (fun w => w.content.format) =
        (documentedPaths .miproTrain).map declaredFormat ∧
      (writesOf (runScript .miproTrain e)).all
        (fun w => 0 < w.content.size) = true) ∧
    ∀ e : ℕ → ℚ, writesOf (runScript .imageClassification e) = [] := by
  refine ⟨fun e => ⟨rfl, rfl, rfl⟩, fun e => ⟨rfl, rfl, rfl⟩,
    fun e => ⟨rfl, rfl, ?_⟩, fun e => ⟨rfl, rfl, ?_⟩, fun e => rfl⟩
  · simp only [runScript, runMiproCreateScript, writesOf, List.all_cons, List.all_nil,
      Bool.and_true, decide_eq_true_eq, Content.size, drawWeights_length]
    decide
  · simp only [runScript, runMiproTrainScript, writesOf, List.all_cons, List.all_nil,
      Bool.and_true, decide_eq_true_eq, Content.size, drawWeights_length]
    decide

/-- C4 counterexample: two runs of the MIPROv2 export script under two
concrete entropy states write different bytes to the same output path: the
artifact embeds the freshly drawn random weights, and the torch RNG is never
seeded. -/
theorem rerun_not_byte_identical :
    runScript .miproCreate (constEntropy 0) ≠ runScript .miproCreate (constEntropy 1) :=
  miproCreate_entropy_sensitive

/-- C4 amended: every write of every script is a whole-file write in
overwrite mode (never append), and the helper-graph and tabular scripts are
run-to-run byte-deterministic; but the torch-based scripts serialize
unseeded random weights into their artifacts, so two runs need not produce
identical bytes (exhibited by the MIPROv2 export script). -/
theorem rerun_overwrite_determinism :
    (∀ s : Script, ∀ e : ℕ → ℚ,
      (writesOf (runScript s e)).all (fun w => w.mode ≠ FileMode.append) = true) ∧
    (∀ e f : ℕ → ℚ, runScript .textModelHelper e = runScript .textModelHelper f) ∧
    (∀ e f : ℕ → ℚ, runScript .tabularClassifier e = runScript .tabularClassifier f) ∧
    ∃ g h : ℕ → ℚ, runScript .miproCreate g ≠ runScript .miproCreate h := by
  refine ⟨fun s e => ?_, fun e f => rfl, fun e f => rfl,
    constEntropy 0, constEntropy 1, miproCreate_entropy_sensitive⟩
  cases s <;> rfl

/-- C5 counterexample: the image-classification script raises NameError
before reaching json.dump, so no metadata sidecar is ever written; moreover
the document literal is not flat — its quantization and metrics values are
nested objects. -/
theorem imageMetadata_never_written :
    runScript .imageClassification (constEntropy 0) = .error (.nameError ("undefined")) ∧
    (writesOf (runScript .imageClassification (constEntropy 0))).map FileWrite.path = [] ∧
    J.isFlat imageMetadata = false :=
  ⟨rfl, rfl, rfl⟩

/-- C5 amended: the metadata document literal of the image-classification
script is a JSON object whose top-level keys are exactly task, framework,
quantization and metrics, all values hand-written constants (the definition
is closed, derived from nothing); it is not a flat document, the quantization
and metrics values being nested objects of fixed keys, and the script as
written aborts before dumping it, so the sidecar is never produced. -/
theorem imageMetadata_literal_keys :
    imageMetadata.topKeys = ["task", "framework", "quantization", "metrics"] ∧
    J.isFlat imageMetadata = false ∧
    (∀ e : ℕ → ℚ, traceOf (runScript .imageClassification e) = []) ∧
    ∀ e : ℕ → ℚ, (writesOf (runScript .imageClassification e)).map FileWrite.path = [] :=
  ⟨rfl, rfl, fun e => rfl, fun e => rfl⟩

/-- C6 counterexample: the text-generation helper script builds its graph and
immediately saves it — its step trace contains an export step but no forward
pass, no training loop and no fit call, so it never executes its graph before
exporting. -/
theorem textModel_never_executes_graph :
    traceOf (runScript .textModelHelper (constEntropy 0)) =
      [Step.define, Step.exportStep textModelExportCall] ∧
    ((traceOf (runScript .textModelHelper (constEntropy 0))).filter Step.isExec).length = 0 ∧
    ((traceOf (runScript .textModelHelper (constEntropy 0))).filter Step.isExportStep).length = 1 :=
  ⟨rfl, rfl, rfl⟩

/-- C6 amended: each runnable script is a linear define-then-export sequence
with optional JSON/text dumps; the tabular script fits its pipeline before
export and the MIPROv2 training script — the only script with a training
loop — trains before export, but no script runs an explicit forward pass,
and the helper and export scripts call the export routine directly on the
freshly built graph; the image-classification script raises during model
definition and completes no step. -/
theorem script_step_sequences :
    (∀ e : ℕ → ℚ,
      traceOf (runScript .textModelHelper e) =
        [Step.define, Step.exportStep textModelExportCall] ∧
      traceOf (runScript .tabularClassifier e) =
        [Step.define, Step.fitCall, Step.exportStep sklExportCall, Step.dumpText] ∧
      traceOf (runScript .miproCreate e) =
        [Step.define, Step.exportStep miproCreateExportCall] ∧
      traceOf (runScript .miproTrain e) =
        [Step.define, Step.trainLoop, Step.exportStep miproTrainExportCall] ∧
      traceOf (runScript .imageClassification e) = []) ∧
    (∀ e : ℕ → ℚ, ∀ s : Script,
      ((traceOf (runScript s e)).filter (fun st => st = Step.forwardPass)).length = 0) ∧
    ∀ e : ℕ → ℚ,
      (([Script.imageClassification, .textModelHelper, .tabularClassifier,
          .miproCreate, .miproTrain].map
            (fun s => traceOf (runScript s e))).filter
          (fun tr => tr.any Step.isTrainLoopStep)).length = 1 := by
  refine ⟨fun e => ⟨rfl, rfl, rfl, rfl, rfl⟩, fun e s => ?_, fun e => rfl⟩
  cases s <;> rfl

/-- C7 counterexample: the export call the tabular script makes declares its
sole input port as float_input, not input, and passes no dynamic-axis naming
hints at all, so not every export call uses the fixed port names and the
batch_size axis label. -/
theorem tabularExport_port_names_differ :
    traceOf (runScript .tabularClassifier (constEntropy 0)) =
      [Step.define, Step.fitCall, Step.exportStep sklExportCall, Step.dumpText] ∧
    sklExportCall.inputNames = ["float_input"] ∧
    sklExportCall.inputNames ≠ ["input"] ∧
    sklExportCall.dynAxes = [] :=
  ⟨rfl, rfl, by decide, rfl⟩

/-- C7 amended: the three torch-based export calls pass input names [input],
output names [output] and label the batch dimension batch_size (the MIPROv2
export script additionally labels axis 1 of the input sequence_length); the
tabular conversion declares its sole input float_input with an unnamed
dynamic batch dimension and no axis hints, and the helper script saves a
graph whose fixed-shape ports are named input and output with no axis
hints. -/
theorem export_call_port_names :
    (∀ e : ℕ → ℚ,
      exportCallsOf (traceOf (runScript .miproCreate e)) = [miproCreateExportCall] ∧
      exportCallsOf (traceOf (runScript .miproTrain e)) = [miproTrainExportCall] ∧
      exportCallsOf (traceOf (runScript .textModelHelper e)) = [textModelExportCall] ∧
      exportCallsOf (traceOf (runScript .tabularClassifier e)) = [sklExportCall] ∧
      exportCallsOf (traceOf (runScript .imageClassification e)) = []) ∧
    ([imageExportCall, miproCreateExportCall, miproTrainExportCall].all
      (fun c =>
        c.inputNames = ["input"] && c.outputNames = ["output"] &&
        c.dynAxes.lookup ("output") = some [(0, "batch_size")] &&
        (c.dynAxes.lookup ("input") = some [(0, "batch_size")] ||
          c.dynAxes.lookup ("input") =
            some [(0, "batch_size"), (1, "sequence_length")])) = true) ∧
    miproCreateExportCall.dynAxes.lookup ("input") =
      some [(0, "batch_size"), (1, "sequence_length")] ∧
    sklExportCall = { inputNames := ["float_input"], outputNames := [], dynAxes := [] } ∧
    textModelExportCall = { inputNames := ["input"], outputNames := ["output"], dynAxes := [] } ∧
    textGenerationGraph.inputs.map TensorValueInfo.shape = [[some 1]] := by
  exact ⟨fun e => ⟨rfl, rfl, rfl, rfl, rfl⟩, by decide, rfl, rfl, rfl, rfl⟩
